import Mathlib

/-!
Verification of the 2K_Program repository against its natural-language
specification.  The Python sources are shallowly embedded: pure numeric code
becomes functions over the reals, Python float arguments (which may carry
NaN) become the type PyNum, fallible code returns Except, and per-module
facts that the spec quantifies over (database-write style, CSV dumps, sleep
calls) are collected in an explicit inventory transcribed from the sources.
-/

namespace TwoK

/-- A Python float argument as validated by black_scholes_merton_enhanced:
either an actual number or NaN.  (Non-float arguments fail the same
isinstance check as NaN fails the comparison, so one bad constructor
suffices for the validation's behaviour.) -/
inductive PyNum where
  | num (x : ℝ)
  | nan
deriving Inhabited

/-- The validation predicate of black_scholes_merton_enhanced, line 21 of
src/api/quant_models/black_scholes_merton.py: isinstance(arg, (int, float))
and arg >= 0.  In Python, nan >= 0 is False. -/
def PyNum.ok : PyNum → Prop
  | .num x => 0 ≤ x
  | .nan => False

/-- The numeric value of a PyNum; only meaningful on arguments that passed
validation (nan never passes). -/
def PyNum.val : PyNum → ℝ
  | .num x => x
  | .nan => 0

/-- Strict positivity of a PyNum. -/
def PyNum.pos : PyNum → Prop
  | .num x => 0 < x
  | .nan => False

/-- The dictionary returned by black_scholes_merton_enhanced.  The d1/d2
keys are present only in the T <= 0 branch of the source (where they are
set to np.nan); the T > 0 branches return a dictionary without them, so
they are Option-valued here. -/
@[ext] structure BSMResult where
  price : ℝ
  delta : ℝ
  gamma : ℝ
  vega : ℝ
  theta : ℝ
  rho : ℝ
  d1 : Option PyNum
  d2 : Option PyNum

open Classical in
/-- Embedding of black_scholes_merton_enhanced
(src/api/quant_models/black_scholes_merton.py, lines 5-75).  The external
library functions scipy.stats.norm.cdf and scipy.stats.norm.pdf are taken
as parameters N and phi; mathematical operations on floats are read as
exact real arithmetic.  Raising ValueError is modelled as Except.error. -/
noncomputable def black_scholes_merton_enhanced (N phi : ℝ → ℝ)
    (S K T r sigma q : PyNum) (option_type : String) :
    Except String BSMResult :=
  if ¬ (S.ok ∧ K.ok ∧ T.ok ∧ sigma.ok ∧ r.ok ∧ q.ok) then
    .error "all inputs S, K, T, sigma, r, q must be numbers at least zero"
  else
    let Sv := S.val
    let Kv := K.val
    let Tv := T.val
    let rv := r.val
    let sigmav := sigma.val
    let qv := q.val
    if Tv ≤ 0 then
      .ok { price := if option_type = "call" then max 0 (Sv - Kv) else max 0 (Kv - Sv)
            delta := if option_type = "call" ∧ Kv < Sv then 1
                     else if option_type = "call" ∧ Sv < Kv then 0
                     else if option_type = "put" ∧ Sv < Kv then -1
                     else 0
            gamma := 0
            vega := 0
            theta := 0
            rho := 0
            d1 := some .nan
            d2 := some .nan }
    else
      let sigma_T_sqrt := sigmav * Real.sqrt Tv
      let d1 := (Real.log (Sv / Kv) + (rv - qv + 0.5 * sigmav ^ 2) * Tv) / sigma_T_sqrt
      let d2 := d1 - sigma_T_sqrt
      let nd1 := N d1
      let nd2 := N d2
      let n_minus_d1 := N (-d1)
      let n_minus_d2 := N (-d2)
      if option_type = "call" then
        .ok { price := Sv * Real.exp (-qv * Tv) * nd1 - Kv * Real.exp (-rv * Tv) * nd2
              delta := Real.exp (-qv * Tv) * nd1
              gamma := Real.exp (-qv * Tv) * phi d1 / (Sv * sigma_T_sqrt)
              vega := Sv * Real.exp (-qv * Tv) * phi d1 * Real.sqrt Tv
              theta := -Sv * Real.exp (-qv * Tv) * phi d1 * sigmav / (2 * Real.sqrt Tv)
                        - rv * Kv * Real.exp (-rv * Tv) * nd2
                        + qv * Sv * Real.exp (-qv * Tv) * nd1
              rho := Kv * Tv * Real.exp (-rv * Tv) * nd2
              d1 := none
              d2 := none }
      else if option_type = "put" then
        .ok { price := Kv * Real.exp (-rv * Tv) * n_minus_d2 - Sv * Real.exp (-qv * Tv) * n_minus_d1
              delta := Real.exp (-qv * Tv) * (nd1 - 1)
              gamma := Real.exp (-qv * Tv) * phi d1 / (Sv * sigma_T_sqrt)
              vega := Sv * Real.exp (-qv * Tv) * phi d1 * Real.sqrt Tv
              theta := -Sv * Real.exp (-qv * Tv) * phi d1 * sigmav / (2 * Real.sqrt Tv)
                        + rv * Kv * Real.exp (-rv * Tv) * n_minus_d2
                        - qv * Sv * Real.exp (-qv * Tv) * n_minus_d1
              rho := -(Kv * Tv * Real.exp (-rv * Tv) * n_minus_d2)
              d1 := none
              d2 := none }
      else
        .error "invalid option type: must be call or put"

/-- The textbook closed-form Black-Scholes-Merton values as worded in the
claim: d1 = (ln(S/K) + (r - q + sigma^2/2)T) / (sigma sqrt T),
d2 = d1 - sigma sqrt T, call = S e^(-qT) N(d1) - K e^(-rT) N(d2),
put = K e^(-rT) N(-d2) - S e^(-qT) N(-d1), together with the textbook
dividend-adjusted greeks for the chosen type (put delta in its textbook
form -e^(-qT) N(-d1)). -/
noncomputable def bsmTextbook (N phi : ℝ → ℝ)
    (S K T r sigma q : ℝ) (option_type : String) : BSMResult :=
  let d1 := (Real.log (S / K) + (r - q + sigma ^ 2 / 2) * T) / (sigma * Real.sqrt T)
  let d2 := d1 - sigma * Real.sqrt T
  if option_type = "call" then
    { price := S * Real.exp (-q * T) * N d1 - K * Real.exp (-r * T) * N d2
      delta := Real.exp (-q * T) * N d1
      gamma := Real.exp (-q * T) * phi d1 / (S * sigma * Real.sqrt T)
      vega := S * Real.exp (-q * T) * phi d1 * Real.sqrt T
      theta := -(S * Real.exp (-q * T) * phi d1 * sigma) / (2 * Real.sqrt T)
                - r * K * Real.exp (-r * T) * N d2
                + q * S * Real.exp (-q * T) * N d1
      rho := K * T * Real.exp (-r * T) * N d2
      d1 := none
      d2 := none }
  else
    { price := K * Real.exp (-r * T) * N (-d2) - S * Real.exp (-q * T) * N (-d1)
      delta := -(Real.exp (-q * T) * N (-d1))
      gamma := Real.exp (-q * T) * phi d1 / (S * sigma * Real.sqrt T)
      vega := S * Real.exp (-q * T) * phi d1 * Real.sqrt T
      theta := -(S * Real.exp (-q * T) * phi d1 * sigma) / (2 * Real.sqrt T)
                + r * K * Real.exp (-r * T) * N (-d2)
                - q * S * Real.exp (-q * T) * N (-d1)
      rho := -(K * T * Real.exp (-r * T) * N (-d2))
      d1 := none
      d2 := none }

/-- The dictionary built by the option_type == 'call' branch of
black_scholes_merton_enhanced for validated positive inputs, with the
source's expressions verbatim. -/
noncomputable def bsmCallDict (N phi : ℝ → ℝ) (S K T r sigma q : ℝ) : BSMResult :=
  let sigma_T_sqrt := sigma * Real.sqrt T
  let d1 := (Real.log (S / K) + (r - q + 0.5 * sigma ^ 2) * T) / sigma_T_sqrt
  let d2 := d1 - sigma_T_sqrt
  { price := S * Real.exp (-q * T) * N d1 - K * Real.exp (-r * T) * N d2
    delta := Real.exp (-q * T) * N d1
    gamma := Real.exp (-q * T) * phi d1 / (S * sigma_T_sqrt)
    vega := S * Real.exp (-q * T) * phi d1 * Real.sqrt T
    theta := -S * Real.exp (-q * T) * phi d1 * sigma / (2 * Real.sqrt T)
              - r * K * Real.exp (-r * T) * N d2
              + q * S * Real.exp (-q * T) * N d1
    rho := K * T * Real.exp (-r * T) * N d2
    d1 := none
    d2 := none }

/-- The dictionary built by the option_type == 'put' branch of
black_scholes_merton_enhanced for validated positive inputs, with the
source's expressions verbatim. -/
noncomputable def bsmPutDict (N phi : ℝ → ℝ) (S K T r sigma q : ℝ) : BSMResult :=
  let sigma_T_sqrt := sigma * Real.sqrt T
  let d1 := (Real.log (S / K) + (r - q + 0.5 * sigma ^ 2) * T) / sigma_T_sqrt
  let d2 := d1 - sigma_T_sqrt
  { price := K * Real.exp (-r * T) * N (-d2) - S * Real.exp (-q * T) * N (-d1)
    delta := Real.exp (-q * T) * (N d1 - 1)
    gamma := Real.exp (-q * T) * phi d1 / (S * sigma_T_sqrt)
    vega := S * Real.exp (-q * T) * phi d1 * Real.sqrt T
    theta := -S * Real.exp (-q * T) * phi d1 * sigma / (2 * Real.sqrt T)
              + r * K * Real.exp (-r * T) * N (-d2)
              - q * S * Real.exp (-q * T) * N (-d1)
    rho := -(K * T * Real.exp (-r * T) * N (-d2))
    d1 := none
    d2 := none }

/-- For validated inputs with T > 0, the call branch of the embedding is
taken. -/
lemma bsm_pos_call (N phi : ℝ → ℝ) (S K T r sigma q : ℝ)
    (hS : 0 < S) (hK : 0 < K) (hT : 0 < T) (hsig : 0 < sigma)
    (hr : 0 ≤ r) (hq : 0 ≤ q) :
    black_scholes_merton_enhanced N phi (.num S) (.num K) (.num T) (.num r)
      (.num sigma) (.num q) "call" = .ok (bsmCallDict N phi S K T r sigma q) := by
  unfold black_scholes_merton_enhanced bsmCallDict
  simp only [PyNum.ok, PyNum.val]
  rw [if_neg (not_not_intro ⟨hS.le, hK.le, hT.le, hsig.le, hr, hq⟩),
    if_neg (not_le.mpr hT)]
  simp only [if_true]

/-- For validated inputs with T > 0, the put branch of the embedding is
taken. -/
lemma bsm_pos_put (N phi : ℝ → ℝ) (S K T r sigma q : ℝ)
    (hS : 0 < S) (hK : 0 < K) (hT : 0 < T) (hsig : 0 < sigma)
    (hr : 0 ≤ r) (hq : 0 ≤ q) :
    black_scholes_merton_enhanced N phi (.num S) (.num K) (.num T) (.num r)
      (.num sigma) (.num q) "put" = .ok (bsmPutDict N phi S K T r sigma q) := by
  unfold black_scholes_merton_enhanced bsmPutDict
  simp only [PyNum.ok, PyNum.val]
  rw [if_neg (not_not_intro ⟨hS.le, hK.le, hT.le, hsig.le, hr, hq⟩),
    if_neg (not_le.mpr hT),
    if_neg (show ¬ ("put" : String) = "call" by decide)]
  simp only [if_true]

/-- C2: for every S > 0, K > 0, T > 0, sigma > 0, r >= 0, q >= 0 and
option_type in the set containing "call" and "put",
black_scholes_merton_enhanced returns exactly the textbook closed-form
Black-Scholes-Merton price and greeks for the chosen type, over exact real
arithmetic with N the (symmetric) standard normal CDF. -/
theorem c2_bsm_returns_textbook_values (N phi : ℝ → ℝ)
    (hN : ∀ x, N x + N (-x) = 1)
    (S K T r sigma q : ℝ) (hS : 0 < S) (hK : 0 < K) (hT : 0 < T)
    (hsig : 0 < sigma) (hr : 0 ≤ r) (hq : 0 ≤ q)
    (option_type : String) (hot : option_type = "call" ∨ option_type = "put") :
    black_scholes_merton_enhanced N phi (.num S) (.num K) (.num T) (.num r)
      (.num sigma) (.num q) option_type
      = .ok (bsmTextbook N phi S K T r sigma q option_type) := by
  have hd1 : (Real.log (S / K) + (r - q + 0.5 * sigma ^ 2) * T) / (sigma * Real.sqrt T)
      = (Real.log (S / K) + (r - q + sigma ^ 2 / 2) * T) / (sigma * Real.sqrt T) := by
    ring
  rcases hot with h | h <;> subst h
  · rw [bsm_pos_call N phi S K T r sigma q hS hK hT hsig hr hq]
    simp only [bsmCallDict, bsmTextbook, if_true]
    rw [hd1]
    congr 1
    ext <;> first | rfl | ring1
  · rw [bsm_pos_put N phi S K T r sigma q hS hK hT hsig hr hq]
    simp only [bsmPutDict, bsmTextbook,
      if_neg (show ¬ ("put" : String) = "call" by decide)]
    rw [hd1]
    congr 1
    ext <;> first
      | rfl
      | ring1
      | linear_combination Real.exp (-q * T) *
          hN ((Real.log (S / K) + (r - q + sigma ^ 2 / 2) * T) / (sigma * Real.sqrt T))

/-- Witness for C2 at S = K = T = sigma = 1, r = q = 0, option_type "call",
with a concrete symmetric CDF stand-in. -/
theorem c2_bsm_returns_textbook_values_witness :
    black_scholes_merton_enhanced (fun _ => 1 / 2) (fun _ => 0)
      (.num 1) (.num 1) (.num 1) (.num 0) (.num 1) (.num 0) "call"
      = .ok (bsmTextbook (fun _ => 1 / 2) (fun _ => 0) 1 1 1 0 1 0 "call") :=
  c2_bsm_returns_textbook_values (fun _ => 1 / 2) (fun _ => 0)
    (fun _ => by norm_num) 1 1 1 0 1 0 one_pos one_pos one_pos one_pos
    le_rfl le_rfl "call" (Or.inl rfl)

/-- C9: put-call parity for the implemented formulas: with N the symmetric
standard normal CDF, the call and put results of
black_scholes_merton_enhanced satisfy call.price - put.price
= S e^(-qT) - K e^(-rT), call.delta - put.delta = e^(-qT), and the two
calls return equal gamma and equal vega. -/
theorem c9_put_call_parity (N phi : ℝ → ℝ)
    (hN : ∀ x, N x + N (-x) = 1)
    (S K T r sigma q : ℝ) (hS : 0 < S) (hK : 0 < K) (hT : 0 < T)
    (hsig : 0 < sigma) (hr : 0 ≤ r) (hq : 0 ≤ q) :
    ∃ callRes putRes : BSMResult,
      black_scholes_merton_enhanced N phi (.num S) (.num K) (.num T) (.num r)
        (.num sigma) (.num q) "call" = .ok callRes ∧
      black_scholes_merton_enhanced N phi (.num S) (.num K) (.num T) (.num r)
        (.num sigma) (.num q) "put" = .ok putRes ∧
      callRes.price - putRes.price
        = S * Real.exp (-q * T) - K * Real.exp (-r * T) ∧
      callRes.delta - putRes.delta = Real.exp (-q * T) ∧
      callRes.gamma = putRes.gamma ∧
      callRes.vega = putRes.vega := by
  refine ⟨bsmCallDict N phi S K T r sigma q, bsmPutDict N phi S K T r sigma q,
    bsm_pos_call N phi S K T r sigma q hS hK hT hsig hr hq,
    bsm_pos_put N phi S K T r sigma q hS hK hT hsig hr hq, ?_, ?_, rfl, rfl⟩
  · have h1 := hN ((Real.log (S / K) + (r - q + 0.5 * sigma ^ 2) * T) / (sigma * Real.sqrt T))
    have h2 := hN ((Real.log (S / K) + (r - q + 0.5 * sigma ^ 2) * T) / (sigma * Real.sqrt T)
      - sigma * Real.sqrt T)
    simp only [bsmCallDict, bsmPutDict]
    linear_combination (S * Real.exp (-q * T)) * h1 - (K * Real.exp (-r * T)) * h2
  · simp only [bsmCallDict, bsmPutDict]
    ring

/-- Witness for C9 at S = K = T = sigma = 1, r = q = 0, with a concrete
symmetric CDF stand-in. -/
theorem c9_put_call_parity_witness :
    ∃ callRes putRes : BSMResult,
      black_scholes_merton_enhanced (fun _ => 1 / 2) (fun _ => 0)
        (.num 1) (.num 1) (.num 1) (.num 0) (.num 1) (.num 0) "call" = .ok callRes ∧
      black_scholes_merton_enhanced (fun _ => 1 / 2) (fun _ => 0)
        (.num 1) (.num 1) (.num 1) (.num 0) (.num 1) (.num 0) "put" = .ok putRes ∧
      callRes.price - putRes.price
        = 1 * Real.exp (-(0 : ℝ) * 1) - 1 * Real.exp (-(0 : ℝ) * 1) ∧
      callRes.delta - putRes.delta = Real.exp (-(0 : ℝ) * 1) ∧
      callRes.gamma = putRes.gamma ∧
      callRes.vega = putRes.vega :=
  c9_put_call_parity (fun _ => 1 / 2) (fun _ => 0) (fun _ => by norm_num)
    1 1 1 0 1 0 one_pos one_pos one_pos one_pos le_rfl le_rfl

/-- Projection of one field of a successful black_scholes_merton_enhanced
result; none when the call raised ValueError. -/
def okField (f : BSMResult → ℝ) : Except String BSMResult → Option ℝ
  | .ok res => some (f res)
  | .error _ => none

/-- C8: black_scholes_merton_enhanced raises ValueError iff some argument
among S, K, T, r, sigma, q is negative or NaN, or T > 0 and option_type is
neither "call" nor "put"; and when T <= 0 (with all arguments valid) it
never raises for any option_type string, returning intrinsic value
max 0 (S - K) for "call" and max 0 (K - S) for every other option_type,
with gamma = vega = theta = rho = 0. -/
theorem c8_valueerror_characterization (N phi : ℝ → ℝ)
    (S K T r sigma q : PyNum) (ot : String) :
    ((∃ msg, black_scholes_merton_enhanced N phi S K T r sigma q ot
        = .error msg) ↔
      ((¬ S.ok ∨ ¬ K.ok ∨ ¬ T.ok ∨ ¬ sigma.ok ∨ ¬ r.ok ∨ ¬ q.ok)
        ∨ (T.pos ∧ ot ≠ "call" ∧ ot ≠ "put")))
    ∧ (∀ t : ℝ, T = .num t → 0 ≤ t → t ≤ 0 →
        S.ok → K.ok → sigma.ok → r.ok → q.ok →
        okField BSMResult.price
            (black_scholes_merton_enhanced N phi S K T r sigma q ot)
          = some (if ot = "call" then max 0 (S.val - K.val)
                  else max 0 (K.val - S.val))
        ∧ okField BSMResult.gamma
            (black_scholes_merton_enhanced N phi S K T r sigma q ot) = some 0
        ∧ okField BSMResult.vega
            (black_scholes_merton_enhanced N phi S K T r sigma q ot) = some 0
        ∧ okField BSMResult.theta
            (black_scholes_merton_enhanced N phi S K T r sigma q ot) = some 0
        ∧ okField BSMResult.rho
            (black_scholes_merton_enhanced N phi S K T r sigma q ot) = some 0) := by
  have hval_iff : (¬ S.ok ∨ ¬ K.ok ∨ ¬ T.ok ∨ ¬ sigma.ok ∨ ¬ r.ok ∨ ¬ q.ok)
      ↔ ¬ (S.ok ∧ K.ok ∧ T.ok ∧ sigma.ok ∧ r.ok ∧ q.ok) := by tauto
  constructor
  · by_cases hval : S.ok ∧ K.ok ∧ T.ok ∧ sigma.ok ∧ r.ok ∧ q.ok
    · by_cases hT0 : T.val ≤ 0
      · have hpos_false : ¬ T.pos := by
          cases T with
          | nan => exact fun h => h
          | num t => exact fun h => absurd hT0 (not_le.mpr h)
        have hres : ∃ res, black_scholes_merton_enhanced N phi S K T r sigma q ot
            = .ok res := by
          simp only [black_scholes_merton_enhanced]
          rw [if_neg (not_not_intro hval), if_pos hT0]
          exact ⟨_, rfl⟩
        obtain ⟨res, hres⟩ := hres
        constructor
        · rintro ⟨msg, hmsg⟩
          rw [hres] at hmsg
          exact Except.noConfusion hmsg
        · rintro (habs | ⟨hp, _, _⟩)
          · exact ((hval_iff.mp habs) hval).elim
          · exact (hpos_false hp).elim
      · have hTpos : T.pos := by
          rcases hval with ⟨_, _, h3, _⟩
          cases T with
          | nan => exact h3.elim
          | num t => exact not_le.mp hT0
        by_cases hcall : ot = "call"
        · have hres : ∃ res, black_scholes_merton_enhanced N phi S K T r sigma q ot
              = .ok res := by
            simp only [black_scholes_merton_enhanced]
            rw [if_neg (not_not_intro hval), if_neg hT0, if_pos hcall]
            exact ⟨_, rfl⟩
          obtain ⟨res, hres⟩ := hres
          constructor
          · rintro ⟨msg, hmsg⟩
            rw [hres] at hmsg
            exact Except.noConfusion hmsg
          · rintro (habs | ⟨_, hnc, _⟩)
            · exact ((hval_iff.mp habs) hval).elim
            · exact (hnc hcall).elim
        · by_cases hput : ot = "put"
          · have hres : ∃ res, black_scholes_merton_enhanced N phi S K T r sigma q ot
                = .ok res := by
              simp only [black_scholes_merton_enhanced]
              rw [if_neg (not_not_intro hval), if_neg hT0, if_neg hcall, if_pos hput]
              exact ⟨_, rfl⟩
            obtain ⟨res, hres⟩ := hres
            constructor
            · rintro ⟨msg, hmsg⟩
              rw [hres] at hmsg
              exact Except.noConfusion hmsg
            · rintro (habs | ⟨_, _, hnp⟩)
              · exact ((hval_iff.mp habs) hval).elim
              · exact (hnp hput).elim
          · have hres : black_scholes_merton_enhanced N phi S K T r sigma q ot
                = .error "invalid option type: must be call or put" := by
              simp only [black_scholes_merton_enhanced]
              rw [if_neg (not_not_intro hval), if_neg hT0, if_neg hcall, if_neg hput]
            constructor
            · intro _
              exact Or.inr ⟨hTpos, hcall, hput⟩
            · intro _
              exact ⟨_, hres⟩
    · have hres : black_scholes_merton_enhanced N phi S K T r sigma q ot
          = .error "all inputs S, K, T, sigma, r, q must be numbers at least zero" := by
        unfold black_scholes_merton_enhanced
        rw [if_pos hval]
      constructor
      · intro _
        exact Or.inl (hval_iff.mpr hval)
      · intro _
        exact ⟨_, hres⟩
  · rintro t rfl h0 hT0 hSok hKok hsigok hrok hqok
    have hres : black_scholes_merton_enhanced N phi S K (.num t) r sigma q ot
        = .ok { price := if ot = "call" then max 0 (S.val - K.val)
                         else max 0 (K.val - S.val)
                delta := if ot = "call" ∧ K.val < S.val then 1
                         else if ot = "call" ∧ S.val < K.val then 0
                         else if ot = "put" ∧ S.val < K.val then -1
                         else 0
                gamma := 0
                vega := 0
                theta := 0
                rho := 0
                d1 := some .nan
                d2 := some .nan } := by
      have hT0' : (PyNum.num t).val ≤ 0 := hT0
      simp only [black_scholes_merton_enhanced]
      rw [if_neg (not_not_intro ⟨hSok, hKok, h0, hsigok, hrok, hqok⟩), if_pos hT0']
    rw [hres]
    exact ⟨rfl, rfl, rfl, rfl, rfl⟩

/-- Witness for C8 at S = 1, K = 2, T = 0, r = 0, sigma = 1, q = 0 and the
invalid option_type "straddle": at expiry the call never raises and returns
rho = 0. -/
theorem c8_valueerror_characterization_witness :
    okField BSMResult.rho
      (black_scholes_merton_enhanced (fun _ => 1 / 2) (fun _ => 0)
        (.num 1) (.num 2) (.num 0) (.num 0) (.num 1) (.num 0) "straddle")
      = some 0 :=
  ((c8_valueerror_characterization (fun _ => 1 / 2) (fun _ => 0)
      (.num 1) (.num 2) (.num 0) (.num 0) (.num 1) (.num 0) "straddle").2
    0 rfl le_rfl le_rfl (by simp [PyNum.ok]) (by simp [PyNum.ok])
    (by simp [PyNum.ok]) (by simp [PyNum.ok]) (by simp [PyNum.ok])).2.2.2.2

/-! ## The Flask endpoint import (src/app.py) -/

/-- The top-level function names defined by
src/api/quant_models/black_scholes_merton.py (its only def is on line 5). -/
def bsmModuleTopLevelDefs : List String := ["black_scholes_merton_enhanced"]

/-- The name imported by src/app.py line 3:
from quant_models.black_scholes_merton import black_scholes_merton. -/
def appImportedName : String := "black_scholes_merton"

/-- Python from-import semantics: the import succeeds iff the module
defines the requested name. -/
def fromImportSucceeds (moduleDefs : List String) (name : String) : Bool :=
  moduleDefs.contains name

/-- The parameters of black_scholes_merton_enhanced that have no default
value, in positional order (line 5 of the module: only option_type has a
default). -/
def bsmRequiredParams : List String := ["S", "K", "T", "r", "sigma", "q"]

/-- src/app.py line 28 passes five positional arguments
(S, K, T, r, sigma). -/
def appCallPositionalCount : Nat := 5

/-- src/app.py line 28 passes one keyword argument. -/
def appCallKeywords : List String := ["option_type"]

/-- Python call binding: a call raises TypeError unless every default-less
parameter is bound positionally or by keyword. -/
def requiredParamsBound (required : List String) (nPos : Nat)
    (kws : List String) : Bool :=
  required.enum.all fun ip => decide (ip.1 < nPos) || kws.contains ip.2

/-- C1: the endpoint POST /api/calculate_option cannot wrap the pricing
function as specified: the name imported by src/app.py is not exported by
src/api/quant_models/black_scholes_merton.py (so the app fails at import
time), and the endpoint's call would in any case not bind the required
parameter q. -/
theorem c1_endpoint_import_and_call_broken :
    fromImportSucceeds bsmModuleTopLevelDefs appImportedName = false
    ∧ requiredParamsBound bsmRequiredParams appCallPositionalCount
        appCallKeywords = false := by
  decide

/-! ## NewsAnalyzer sentiment labels
(src/api/Data_Collection/News_Collector/news_analyzer.py) -/

/-- Embedding of NewsAnalyzer._get_sentiment_label (lines 26-32 of
src/api/Data_Collection/News_Collector/news_analyzer.py): scores are exact
decimals and a missing score is Option.none. -/
def getSentimentLabel (score : Option ℚ) : String :=
  match score with
  | none => "Neutral"
  | some s =>
    if s ≥ 35 / 100 then "Bullish"
    else if s ≥ 15 / 100 then "Somewhat-Bullish"
    else if s < -(35 / 100) then "Bearish"
    else if s < -(15 / 100) then "Somewhat-Bearish"
    else "Neutral"

/-- C10 counterexample: at score = -0.15 the code returns "Neutral"
(the Somewhat-Bearish comparison is strict), not "Somewhat-Bearish" as the
claim asserts for that boundary. -/
theorem c10_counterexample_boundary :
    getSentimentLabel (some (-(15 / 100))) = "Neutral"
    ∧ getSentimentLabel (some (-(15 / 100))) ≠ "Somewhat-Bearish" := by
  have h : getSentimentLabel (some (-(15 / 100))) = "Neutral" := by
    simp only [getSentimentLabel]
    norm_num
  exact ⟨h, by rw [h]; decide⟩

/-- C10 (amended): _get_sentiment_label is total on scores plus None and
always returns one of the five labels, partitioning the range as:
None and -0.15 <= score < 0.15 give "Neutral", score >= 0.35 "Bullish",
0.15 <= score < 0.35 "Somewhat-Bullish", -0.35 <= score < -0.15
"Somewhat-Bearish" (the score = -0.15 boundary itself is "Neutral"),
score < -0.35 "Bearish"; the outer boundaries are asymmetric: +0.35 maps
to "Bullish" while -0.35 maps to "Somewhat-Bearish". -/
theorem c10_sentiment_label_partition :
    getSentimentLabel none = "Neutral"
    ∧ (∀ s : ℚ, 35 / 100 ≤ s → getSentimentLabel (some s) = "Bullish")
    ∧ (∀ s : ℚ, 15 / 100 ≤ s → s < 35 / 100 →
        getSentimentLabel (some s) = "Somewhat-Bullish")
    ∧ (∀ s : ℚ, -(15 / 100) ≤ s → s < 15 / 100 →
        getSentimentLabel (some s) = "Neutral")
    ∧ (∀ s : ℚ, -(35 / 100) ≤ s → s < -(15 / 100) →
        getSentimentLabel (some s) = "Somewhat-Bearish")
    ∧ (∀ s : ℚ, s < -(35 / 100) → getSentimentLabel (some s) = "Bearish")
    ∧ (∀ s : ℚ, getSentimentLabel (some s)
        ∈ ["Bullish", "Somewhat-Bullish", "Neutral", "Somewhat-Bearish", "Bearish"])
    ∧ getSentimentLabel (some (35 / 100)) = "Bullish"
    ∧ getSentimentLabel (some (-(35 / 100))) = "Somewhat-Bearish" := by
  refine ⟨rfl, ?_, ?_, ?_, ?_, ?_, ?_,
    by simp only [getSentimentLabel]; norm_num,
    by simp only [getSentimentLabel]; norm_num⟩
  · intro s h
    simp only [getSentimentLabel]
    split_ifs <;> first | rfl | (exfalso; linarith)
  · intro s h1 h2
    simp only [getSentimentLabel]
    split_ifs <;> first | rfl | (exfalso; linarith)
  · intro s h1 h2
    simp only [getSentimentLabel]
    split_ifs <;> first | rfl | (exfalso; linarith)
  · intro s h1 h2
    simp only [getSentimentLabel]
    split_ifs <;> first | rfl | (exfalso; linarith)
  · intro s h
    simp only [getSentimentLabel]
    split_ifs <;> first | rfl | (exfalso; linarith)
  · intro s
    simp only [getSentimentLabel]
    split_ifs <;> simp

/-- Witness for the amended C10 at score = 0.5. -/
theorem c10_sentiment_label_partition_witness :
    getSentimentLabel (some (1 / 2)) = "Bullish" :=
  c10_sentiment_label_partition.2.1 (1 / 2) (by norm_num)

/-! ## Collector inventory

One record per data-collector module, transcribed from the sources: every
database write it performs (with the ON CONFLICT clause verbatim for raw
SQL), the number of to_csv call sites, the sleep calls appearing in the
module, and whether a single run issues several successive third-party API
requests. -/

/-- Whether the pattern starts the character list. -/
def charsStartWith : List Char → List Char → Bool
  | [], _ => true
  | _ :: _, [] => false
  | p :: ps, c :: cs => p == c && charsStartWith ps cs

/-- Whether the pattern occurs anywhere in the character list. -/
def charsContain (pat text : List Char) : Bool :=
  match text with
  | [] => pat.isEmpty
  | _ :: rest => charsStartWith pat text || charsContain pat rest

/-- Substring test used to classify SQL statements. -/
def hasSubstr (s pat : String) : Bool := charsContain pat.data s.data

/-- One database write performed by a collector, as written in the source:
a raw SQL INSERT executed through a cursor or session (carrying its
ON CONFLICT clause verbatim, or the empty string when there is none), a
SQLAlchemy pg_insert with the named conflict method, or a pandas
DataFrame.to_sql call with its if_exists mode. -/
inductive DbWrite where
  | rawSql (conflictClause : String)
  | sqlAlchemyPgInsert (conflictMethod : String)
  | pandasToSql (table : String) (ifExists : String)
deriving DecidableEq

/-- A write is an upsert in the glossary's sense when it updates the row on
conflict: INSERT ... ON CONFLICT ... DO UPDATE, or the SQLAlchemy
on_conflict_do_update construct. -/
def DbWrite.isOnConflictDoUpdate : DbWrite → Bool
  | .rawSql c => hasSubstr c "ON CONFLICT" && hasSubstr c "DO UPDATE"
  | .sqlAlchemyPgInsert m => m == "on_conflict_do_update"
  | .pandasToSql _ _ => false

/-- A raw insert that skips conflicting rows instead of updating them. -/
def DbWrite.isOnConflictDoNothing : DbWrite → Bool
  | .rawSql c => hasSubstr c "ON CONFLICT" && hasSubstr c "DO NOTHING"
  | .sqlAlchemyPgInsert m => m == "on_conflict_do_nothing"
  | .pandasToSql _ _ => false

/-- A pandas to_sql append: a plain INSERT with no ON CONFLICT clause. -/
def DbWrite.isPandasAppend : DbWrite → Bool
  | .pandasToSql _ ifExists => ifExists == "append"
  | _ => false

/-- Per-module facts transcribed from one collector source file. -/
structure CollectorModule where
  path : String
  dbWrites : List DbWrite
  csvWriteCount : Nat
  sleepCalls : List String
  issuesSuccessiveApiCalls : Bool
  collectionOnlyInDefsOrMainGuard : Bool
  importsConfigLoaderAtImport : Bool
deriving DecidableEq

/-- The data-collector modules of the repository and what each one does,
read off the sources file by file (line references in the comments). -/
def collectorInventory : List CollectorModule := [
  { path := "Data/AlphaVantage.py"
    -- cur.execute INSERTs at lines 111, 284, 375, 510; to_csv at 143, 318, 533
    dbWrites := [.rawSql "ON CONFLICT (symbol, timestamp) DO UPDATE SET",
                 .rawSql "ON CONFLICT (symbol, report_date, period) DO UPDATE",
                 .rawSql "ON CONFLICT (symbol) DO UPDATE SET",
                 .rawSql "ON CONFLICT (symbol, timestamp) DO UPDATE SET"]
    csvWriteCount := 3
    sleepCalls := ["time.sleep(15)", "time.sleep(15)", "time.sleep(15)", "time.sleep(15)"]
    issuesSuccessiveApiCalls := true
    collectionOnlyInDefsOrMainGuard := true
    importsConfigLoaderAtImport := true },
  { path := "Data/FMP.py"
    -- cur.execute INSERTs at lines 59, 121, 246; three back-to-back
    -- requests.get at 176-178 with no sleep anywhere; no to_csv
    dbWrites := [.rawSql "ON CONFLICT (symbol, trade_date) DO UPDATE",
                 .rawSql "ON CONFLICT (symbol, trade_date, exchange) DO UPDATE",
                 .rawSql "ON CONFLICT (symbol, report_date, period) DO UPDATE"]
    csvWriteCount := 0
    sleepCalls := []
    issuesSuccessiveApiCalls := true
    collectionOnlyInDefsOrMainGuard := true
    importsConfigLoaderAtImport := true },
  { path := "FRED.py"
    -- CSV-only collector: to_csv at line 124, loop over datasets at 150,
    -- no database write, no sleep
    dbWrites := []
    csvWriteCount := 1
    sleepCalls := []
    issuesSuccessiveApiCalls := true
    collectionOnlyInDefsOrMainGuard := true
    importsConfigLoaderAtImport := true },
  { path := "Data/collector/AlphaVantage_collector.py"
    -- cur.execute INSERTs at 124, 297, 384, 519; to_csv at 154, 331, 544;
    -- time.sleep(15) at 232, 581, 589, 597
    dbWrites := [.rawSql "ON CONFLICT (symbol, timestamp) DO UPDATE SET",
                 .rawSql "ON CONFLICT (symbol, report_date, period) DO UPDATE",
                 .rawSql "ON CONFLICT (symbol) DO UPDATE SET",
                 .rawSql "ON CONFLICT (symbol, timestamp) DO UPDATE SET"]
    csvWriteCount := 3
    sleepCalls := ["time.sleep(15)", "time.sleep(15)", "time.sleep(15)", "time.sleep(15)"]
    issuesSuccessiveApiCalls := true
    collectionOnlyInDefsOrMainGuard := true
    importsConfigLoaderAtImport := true },
  { path := "Data/collector/FMP_collector.py"
    -- cur.execute INSERTs at 84, 171, 333; to_csv at 118, 207, 384; three
    -- back-to-back requests.get at 247-249 and no sleep in the module
    dbWrites := [.rawSql "ON CONFLICT (symbol, timestamp) DO UPDATE SET",
                 .rawSql "ON CONFLICT (symbol, timestamp) DO UPDATE SET",
                 .rawSql "ON CONFLICT (symbol, report_date, period) DO UPDATE"]
    csvWriteCount := 3
    sleepCalls := []
    issuesSuccessiveApiCalls := true
    collectionOnlyInDefsOrMainGuard := true
    importsConfigLoaderAtImport := true },
  { path := "Data/collector/FRED_collector.py"
    -- DataFrame.to_sql(if_exists=append) at line 141; CSV saving removed
    -- (comments at 22-30, 176); the __main__ loop at 181-199 calls
    -- collect_fred_series per configured series with no sleep
    dbWrites := [.pandasToSql "fred_series_raw" "append"]
    csvWriteCount := 0
    sleepCalls := []
    issuesSuccessiveApiCalls := true
    collectionOnlyInDefsOrMainGuard := true
    importsConfigLoaderAtImport := true },
  { path := "Data/collector/WB_collector.py"
    -- CSV-only collector: to_csv at 184; retry sleep at 89, pagination
    -- sleep at 162, per-country sleep at 270
    dbWrites := []
    csvWriteCount := 1
    sleepCalls := ["time.sleep(delay)", "time.sleep(0.05)",
                   "time.sleep(COUNTRY_PROCESSING_DELAY_SECONDS)"]
    issuesSuccessiveApiCalls := true
    collectionOnlyInDefsOrMainGuard := true
    importsConfigLoaderAtImport := true },
  { path := "Data/Data_Collector/FMP_collector.py"
    -- cur.execute INSERTs at 96, 266; to_csv at 119, 291; time.sleep(1)
    -- at 175, 177, 327, 331
    dbWrites := [.rawSql "ON CONFLICT (symbol, timestamp) DO UPDATE SET",
                 .rawSql "ON CONFLICT (symbol, report_date, period) DO UPDATE"]
    csvWriteCount := 2
    sleepCalls := ["time.sleep(1)", "time.sleep(1)", "time.sleep(1)", "time.sleep(1)"]
    issuesSuccessiveApiCalls := true
    collectionOnlyInDefsOrMainGuard := true
    importsConfigLoaderAtImport := true },
  { path := "Data_Collection/Data_Collector/FRED_collector.py"
    -- DataFrame.to_sql(if_exists=append) at line 96; no to_csv; the
    -- __main__ loop at 132-148 calls collect_fred_series per configured
    -- series with no sleep
    dbWrites := [.pandasToSql "fred_series_raw" "append"]
    csvWriteCount := 0
    sleepCalls := []
    issuesSuccessiveApiCalls := true
    collectionOnlyInDefsOrMainGuard := true
    importsConfigLoaderAtImport := true },
  { path := "Data_Collection/Data_Collector/yfinance_collector.py"
    -- raw SQL inserts at 32-35, 60-63, 116-120, all ON CONFLICT DO
    -- NOTHING; no to_csv; asyncio.sleep(2) between symbols at 142;
    -- imports src.shared.config.app_settings, not a config_loader module
    dbWrites := [.rawSql "ON CONFLICT (time, symbol) DO NOTHING",
                 .rawSql "ON CONFLICT (symbol, date) DO NOTHING",
                 .rawSql "ON CONFLICT (time, symbol, expiration_date, strike, option_type) DO NOTHING"]
    csvWriteCount := 0
    sleepCalls := ["asyncio.sleep(2)"]
    issuesSuccessiveApiCalls := true
    collectionOnlyInDefsOrMainGuard := true
    importsConfigLoaderAtImport := false },
  { path := "api/Data_Collection/Data_Collector/AlphaVantage_collector.py"
    -- SQLAlchemy pg_insert(...).on_conflict_do_update at 315 and 596;
    -- to_csv at 355, 628, 728; time.sleep(15) at 633, 782, 786, 790
    dbWrites := [.sqlAlchemyPgInsert "on_conflict_do_update",
                 .sqlAlchemyPgInsert "on_conflict_do_update"]
    csvWriteCount := 3
    sleepCalls := ["time.sleep(15)", "time.sleep(15)", "time.sleep(15)", "time.sleep(15)"]
    issuesSuccessiveApiCalls := true
    collectionOnlyInDefsOrMainGuard := true
    importsConfigLoaderAtImport := true },
  { path := "api/Data_Collection/Data_Collector/WB_collector.py"
    -- DataFrame.to_sql(if_exists=append) at 129; no to_csv; retry sleep
    -- at 36, pagination sleep at 99, per-indicator sleep at 241,
    -- per-country sleep at 245
    dbWrites := [.pandasToSql "world_bank_indicators_raw" "append"]
    csvWriteCount := 0
    sleepCalls := ["time.sleep(delay)", "time.sleep(0.05)",
                   "time.sleep(INDICATOR_PROCESSING_DELAY_SECONDS)",
                   "time.sleep(COUNTRY_PROCESSING_DELAY_SECONDS)"]
    issuesSuccessiveApiCalls := true
    collectionOnlyInDefsOrMainGuard := true
    importsConfigLoaderAtImport := true }]

/-- Inventory lookup by path. -/
def inventoryEntry (p : String) : Option CollectorModule :=
  collectorInventory.find? fun m => m.path == p

/-- The collectors whose raw SQL inserts carry ON CONFLICT ... DO UPDATE. -/
def doUpdateCollectorPaths : List String :=
  ["Data/AlphaVantage.py", "Data/FMP.py",
   "Data/collector/AlphaVantage_collector.py",
   "Data/collector/FMP_collector.py",
   "Data/Data_Collector/FMP_collector.py",
   "api/Data_Collection/Data_Collector/AlphaVantage_collector.py"]

/-- The collector whose inserts carry ON CONFLICT ... DO NOTHING. -/
def doNothingCollectorPaths : List String :=
  ["Data_Collection/Data_Collector/yfinance_collector.py"]

/-- The collectors that write through pandas to_sql(if_exists=append). -/
def appendCollectorPaths : List String :=
  ["Data/collector/FRED_collector.py",
   "Data_Collection/Data_Collector/FRED_collector.py",
   "api/Data_Collection/Data_Collector/WB_collector.py"]

/-- The collectors that perform no database write at all. -/
def noDbWriteCollectorPaths : List String :=
  ["FRED.py", "Data/collector/WB_collector.py"]

/-- C3 counterexample: not every collector database write is an
INSERT ... ON CONFLICT DO UPDATE upsert; in particular none of
yfinance_collector's writes is. -/
theorem c3_counterexample_not_all_upserts :
    (¬ ∀ m ∈ collectorInventory, ∀ w ∈ m.dbWrites,
        w.isOnConflictDoUpdate = true)
    ∧ (inventoryEntry "Data_Collection/Data_Collector/yfinance_collector.py").map
        (fun m => m.dbWrites.all (·.isOnConflictDoUpdate)) = some false := by
  decide

/-- C3 (amended): every collector database write is one of three styles,
and which collectors use which is exact: the AlphaVantage and FMP
collectors upsert with INSERT ... ON CONFLICT DO UPDATE, yfinance_collector
inserts with ON CONFLICT DO NOTHING (an existing row keeps its old values),
and the FRED collectors and the api WB collector write through pandas
to_sql(if_exists=append), a plain INSERT with no ON CONFLICT clause;
FRED.py and Data/collector/WB_collector.py write no database rows. -/
theorem c3_collector_write_styles :
    (collectorInventory.all fun m => m.dbWrites.all fun w =>
        w.isOnConflictDoUpdate || w.isOnConflictDoNothing || w.isPandasAppend) = true
    ∧ (collectorInventory.all fun m =>
        decide (m.path ∈ doUpdateCollectorPaths)
          == m.dbWrites.any (·.isOnConflictDoUpdate)) = true
    ∧ (collectorInventory.all fun m =>
        decide (m.path ∈ doNothingCollectorPaths)
          == m.dbWrites.any (·.isOnConflictDoNothing)) = true
    ∧ (collectorInventory.all fun m =>
        decide (m.path ∈ appendCollectorPaths)
          == m.dbWrites.any (·.isPandasAppend)) = true
    ∧ (collectorInventory.all fun m =>
        decide (m.path ∈ noDbWriteCollectorPaths) == m.dbWrites.isEmpty) = true := by
  decide

/-- The collectors that dump no CSV file. -/
def noCsvCollectorPaths : List String :=
  ["Data/FMP.py", "Data/collector/FRED_collector.py",
   "Data_Collection/Data_Collector/FRED_collector.py",
   "Data_Collection/Data_Collector/yfinance_collector.py",
   "api/Data_Collection/Data_Collector/WB_collector.py"]

/-- C5 counterexample: not every collector also dumps the collected rows to
a CSV file; the FRED collector has no to_csv call (its CSV saving was
removed). -/
theorem c5_counterexample_no_csv :
    (¬ ∀ m ∈ collectorInventory, 0 < m.csvWriteCount)
    ∧ (inventoryEntry "Data/collector/FRED_collector.py").map
        (fun m => m.csvWriteCount) = some 0 := by
  decide

/-- C5 (amended): the AlphaVantage and most FMP/WB collectors and FRED.py
dump CSVs, but FMP.py, both FRED_collector.py versions,
yfinance_collector.py and the api WB_collector.py persist without any CSV
dump. -/
theorem c5_csv_dump_exactly :
    (collectorInventory.all fun m =>
      decide (0 < m.csvWriteCount) == !(decide (m.path ∈ noCsvCollectorPaths))) = true := by
  decide

/-- The collectors that issue successive third-party API requests with no
sleep call anywhere in the module. -/
def noSleepCollectorPaths : List String :=
  ["Data/FMP.py", "FRED.py", "Data/collector/FMP_collector.py",
   "Data/collector/FRED_collector.py",
   "Data_Collection/Data_Collector/FRED_collector.py"]

/-- C6 counterexample: not every collector sleeps between consecutive API
calls; the FRED collector issues one fred.get_series call per configured
series in a loop with no sleep call in the module. -/
theorem c6_counterexample_no_sleep :
    (¬ ∀ m ∈ collectorInventory,
        m.issuesSuccessiveApiCalls = true → m.sleepCalls ≠ [])
    ∧ (inventoryEntry "Data/collector/FRED_collector.py").map
        (fun m => (m.issuesSuccessiveApiCalls, m.sleepCalls))
      = some (true, []) := by
  decide

/-- C6 (amended): every collector issues successive API requests in a run,
and all of them sleep between calls except FMP.py, FRED.py,
Data/collector/FMP_collector.py and the two FRED_collector.py versions,
which have no sleep call at all. -/
theorem c6_sleep_exactly :
    (collectorInventory.all fun m =>
      (!m.sleepCalls.isEmpty) == !(decide (m.path ∈ noSleepCollectorPaths))) = true
    ∧ (collectorInventory.all fun m => m.issuesSuccessiveApiCalls) = true := by
  decide

/-! ## Import-time behaviour of the config loaders (C7) -/

/-- The environment a config_loader import runs in: whether config.yaml
exists, whether it parses, and whether some database key's environment
variable named by a *_env entry is unset. -/
structure ConfigEnv where
  configYamlExists : Bool
  configYamlParses : Bool
  missingDbEnvVar : Bool
deriving DecidableEq, Fintype

/-- The exceptions load_config can raise. -/
inductive ConfigError where
  | fileNotFound
  | yamlError
  | missingEnvVar
deriving DecidableEq

/-- Embedding of load_config
(src/api/Data_Collection/config/config_loader.py lines 33-100; the
Data/config and Data_Collection/config copies share this structure): raise
FileNotFoundError when config.yaml is missing, re-raise yaml.YAMLError when
it does not parse, raise ValueError when a required database environment
variable is unset, and otherwise return the processed configuration. -/
def load_config (env : ConfigEnv) : Except ConfigError Unit :=
  if !env.configYamlExists then .error .fileNotFound
  else if !env.configYamlParses then .error .yamlError
  else if env.missingDbEnvVar then .error .missingEnvVar
  else .ok ()

/-- What importing a module does to the process. -/
inductive ImportOutcome where
  | completes
  | exitsProcess (code : Nat)
deriving DecidableEq

/-- Embedding of the module-level statements of config_loader.py (lines
101-105 of the api copy, identically at 119-125 of the other two copies):
CONFIG.update(load_config()) runs at import time inside try, and any
exception is answered with sys.exit(1). -/
def configLoaderImport (env : ConfigEnv) : ImportOutcome :=
  match load_config env with
  | .ok _ => .completes
  | .error _ => .exitsProcess 1

/-- C7 counterexample: importing a module of the repository can terminate
the process: importing config_loader (directly, or transitively from any
collector that imports it) with config.yaml absent reaches sys.exit(1). -/
theorem c7_counterexample_import_exits :
    configLoaderImport ⟨false, true, false⟩ = .exitsProcess 1
    ∧ ImportOutcome.exitsProcess 1 ≠ .completes := by
  decide

/-- Whether load_config returns normally rather than raising. -/
def loadConfigOk (env : ConfigEnv) : Bool :=
  match load_config env with
  | .ok _ => true
  | .error _ => false

/-- C7 (amended): every collector performs its data collection only inside
function bodies or under its main guard, so importing runs no collection;
but the three config_loader copies run load_config at import time and call
sys.exit(1) whenever it fails, so importing a module that reaches a
config_loader can terminate the process: the import completes exactly when
load_config succeeds, and a missing config.yaml always exits. -/
theorem c7_import_side_effects :
    (collectorInventory.all fun m => m.collectionOnlyInDefsOrMainGuard) = true
    ∧ (∀ env : ConfigEnv,
        configLoaderImport env = .completes ↔ loadConfigOk env = true)
    ∧ (∀ env : ConfigEnv, env.configYamlExists = false →
        configLoaderImport env = .exitsProcess 1) := by
  decide

/-- Witness for the amended C7: with config.yaml absent the import exits
with code 1. -/
theorem c7_import_side_effects_witness :
    configLoaderImport ⟨false, false, true⟩ = .exitsProcess 1 :=
  c7_import_side_effects.2.2 ⟨false, false, true⟩ rfl

/-! ## The two collect_fred_series revisions (C4) -/

/-- An abstract calendar date produced by datetime.strptime. -/
abbrev PyDate := Int

/-- The run-determining data of one collect_fred_series call: the series,
the parsed observation start date, the identifier interpolated into the
starting-download log line, and the to_sql target. -/
structure FredPlan where
  seriesId : String
  startDate : Option PyDate
  logName : String
  tableName : String
  ifExists : String
  valueSqlType : String
deriving DecidableEq

/-- Embedding of collect_fred_series from
src/Data/collector/FRED_collector.py lines 39-163: parameters
(series_id, start_date_str=None, end_date_str=None, desired_file_name=None,
sub_path=None), applied to a positional argument list; strptime stands for
the library datetime.strptime with format YYYY-MM-DD, parse failure
falling back to the FRED default (None).  The series_id is used in the
starting-download log line, and the DataFrame is written with
to_sql("fred_series_raw", if_exists="append") with the value column typed
NUMERIC (line 141-145). -/
def collect_fred_series_vA (strptime : String → Option PyDate)
    (pos : List String) : Option FredPlan :=
  if pos.length < 1 ∨ 5 < pos.length then none
  else some
    { seriesId := pos.headD ""
      startDate := (pos[1]?).bind strptime
      logName := pos.headD ""
      tableName := "fred_series_raw"
      ifExists := "append"
      valueSqlType := "NUMERIC" }

/-- Embedding of collect_fred_series from
src/Data_Collection/Data_Collector/FRED_collector.py lines 32-116:
parameters (series_id, series_name, start_date_str=None,
end_date_str=None), applied to a positional argument list; the second
required parameter is a display name used in the starting-download log
line, the start date is the third argument, and the DataFrame is written
with to_sql("fred_series_raw", if_exists="append") with the value column
typed Float (lines 88-96). -/
def collect_fred_series_vB (strptime : String → Option PyDate)
    (pos : List String) : Option FredPlan :=
  if pos.length < 2 ∨ 4 < pos.length then none
  else some
    { seriesId := pos.headD ""
      startDate := (pos[2]?).bind strptime
      logName := (pos[1]?).getD ""
      tableName := "fred_series_raw"
      ifExists := "append"
      valueSqlType := "Float" }

/-- C4 counterexample: the two FRED_collector.py files do not define the
same function with identical behaviour: called with the same positional
arguments ("GDP", "2020-01-01") one parses the second argument as the
observation start date while the other treats it as a display name, and a
one-argument call is accepted by one and a TypeError in the other. -/
theorem c4_counterexample_fred_versions_differ :
    (collect_fred_series_vA
        (fun s => if s = "2020-01-01" then some 0 else none)
        ["GDP", "2020-01-01"]
      ≠ collect_fred_series_vB
        (fun s => if s = "2020-01-01" then some 0 else none)
        ["GDP", "2020-01-01"])
    ∧ (collect_fred_series_vA
        (fun s => if s = "2020-01-01" then some 0 else none)
        ["GDP"]).isSome = true
    ∧ collect_fred_series_vB
        (fun s => if s = "2020-01-01" then some 0 else none)
        ["GDP"] = none := by
  decide

/-- C4 (amended): the repeated collector filenames are successive revisions
rather than verbatim copies: whenever both collect_fred_series versions
accept a positional call they agree on the series and on the
to_sql(fred_series_raw, append) write, but they always disagree on the SQL
type of the value column (NUMERIC versus Float) and differ in signature;
the duplicated WB_collector.py and FMP_collector.py versions likewise
differ in the database writes they perform. -/
theorem c4_fred_versions_are_revisions :
    (∀ strptime pos plA plB,
        collect_fred_series_vA strptime pos = some plA →
        collect_fred_series_vB strptime pos = some plB →
        plA.seriesId = plB.seriesId ∧ plA.tableName = plB.tableName
          ∧ plA.ifExists = plB.ifExists ∧ plA.valueSqlType ≠ plB.valueSqlType)
    ∧ ((inventoryEntry "Data/collector/WB_collector.py").map (fun m => m.dbWrites)
        ≠ (inventoryEntry "api/Data_Collection/Data_Collector/WB_collector.py").map
            (fun m => m.dbWrites))
    ∧ ((inventoryEntry "Data/collector/FMP_collector.py").map (fun m => m.dbWrites)
        ≠ (inventoryEntry "Data/Data_Collector/FMP_collector.py").map
            (fun m => m.dbWrites)) := by
  refine ⟨?_, by decide, by decide⟩
  intro strptime pos plA plB hA hB
  simp only [collect_fred_series_vA] at hA
  simp only [collect_fred_series_vB] at hB
  split at hA
  · exact absurd hA (by simp)
  · split at hB
    · exact absurd hB (by simp)
    · cases Option.some.inj hA
      cases Option.some.inj hB
      refine ⟨rfl, rfl, rfl, ?_⟩
      show ("NUMERIC" : String) ≠ "Float"
      decide

/-- Witness for the amended C4 at the two-argument call ("GDP", "X"). -/
theorem c4_fred_versions_are_revisions_witness :
    ("GDP" : String) = "GDP" ∧ ("fred_series_raw" : String) = "fred_series_raw"
      ∧ ("append" : String) = "append" ∧ ("NUMERIC" : String) ≠ "Float" :=
  c4_fred_versions_are_revisions.1 (fun _ => none) ["GDP", "X"] _ _ rfl rfl

end TwoK
